import Mathlib

/-!
Verification of the specification of skew/awsclient.py against the code.

The module wraps a cloud SDK (boto3).  We embed the decision logic of the
file itself — credential resolution in AWSClient.__init__ (lines 39-66),
session/client creation in AWSClient._create_client (lines 92-125), the
retry/stop loop and query post-processing of AWSClient.call (lines 127-183),
the json_encoder helper (lines 29-34) and get_awsclient (lines 186-189) —
and treat the SDK itself (boto3.Session, client construction, pagination,
jmespath search, build_full_result) as external collaborators, passed in as
abstract parameters or represented by descriptive values.
-/

set_option maxHeartbeats 1000000

namespace Skew

/-- Model of the Python substring test used on stringified errors: does the
pattern occur at the head of the text? -/
def leadsWith : List Char → List Char → Bool
  | [], _ => true
  | _ :: _, [] => false
  | p :: ps, c :: cs => p == c && leadsWith ps cs

/-- Model of the Python substring test: does the pattern occur anywhere in
the text (list form)? -/
def hasSubList (pat : List Char) : List Char → Bool
  | [] => pat.isEmpty
  | c :: cs => leadsWith pat (c :: cs) || hasSubList pat cs

/-- Model of the Python expression `pat in s` on strings, as used in
`if "Throttling" in str(e)` and the three ignorable-error checks. -/
def pyIn (pat s : String) : Bool := hasSubList pat.data s.data

/-- A naive Python datetime.datetime value (no timezone), the only case the
json_encoder helper treats specially. -/
structure PyDatetime where
  year : Nat
  month : Nat
  day : Nat
  hour : Nat
  minute : Nat
  second : Nat
  usec : Nat
deriving DecidableEq

/-- Zero-pad the decimal rendering of a number to a given width, as the
CPython isoformat rendering does. -/
def padNum (w : Nat) (n : Nat) : String :=
  let s := toString n
  String.mk (List.replicate (w - s.length) '0') ++ s

/-- Model of datetime.datetime.isoformat() for a naive datetime:
YYYY-MM-DDTHH:MM:SS, with .ffffff appended only when the microsecond field
is nonzero. -/
def PyDatetime.isoformat (d : PyDatetime) : String :=
  padNum 4 d.year ++ "-" ++ padNum 2 d.month ++ "-" ++ padNum 2 d.day ++ "T" ++
    padNum 2 d.hour ++ ":" ++ padNum 2 d.minute ++ ":" ++ padNum 2 d.second ++
    (if d.usec = 0 then "" else "." ++ padNum 6 d.usec)

/-- Native Python data values as returned by the SDK operations and fed to
serialization: JSON-like structures whose leaves may also be datetimes. -/
inductive JValue where
  | null : JValue
  | bool (b : Bool) : JValue
  | num (n : Int) : JValue
  | str (s : String) : JValue
  | datetime (d : PyDatetime) : JValue
  | arr (items : List JValue) : JValue
  | obj (fields : List (String × JValue)) : JValue

/-- The empty dict, the initial value of `data` in the retry loop
(awsclient.py line 164). -/
def emptyData : JValue := JValue.obj []

/-- Embedding of json_encoder (awsclient.py lines 29-34): datetimes are
rendered in ISO-8601 form, everything else is returned unchanged. -/
def json_encoder : JValue → JValue
  | JValue.datetime d => JValue.str d.isoformat
  | v => v

/-- Discriminator for the isinstance(obj, datetime.datetime) test. -/
def JValue.isDatetimeVal : JValue → Bool
  | JValue.datetime _ => true
  | _ => false

/-- An aws_creds value: the keyword dictionary handed to boto3.Session
(access key, secret key, session token, ...).  A Python dict, so it may be
empty, and an empty dict is falsy. -/
abbrev Creds := List (String × String)

/-- One entry of the `accounts` section of the configuration: the optional
keys this module reads.  `some x` means the key is present with value x. -/
structure AccountConfig where
  credentials : Option Creds
  profile : Option String
  role_arn : Option String
  external_id : Option String

/-- The credential-related attributes established by AWSClient.__init__
(self.aws_creds, self._profile, self._role_arn, self._external_id). -/
structure ResolvedCreds where
  aws_creds : Option Creds
  profile : Option String
  role_arn : Option String
  external_id : Option String
deriving DecidableEq

/-- Embedding of the credential-resolution part of AWSClient.__init__
(awsclient.py lines 47-62): aws_creds comes from the constructor argument,
else from the account configuration; only when both are absent is the
profile key consulted, and only when that too is absent the role_arn key
(with external_id read only inside the role_arn branch). -/
def initResolve (awsCredsArg : Option Creds) (acct : AccountConfig) : ResolvedCreds :=
  match (match awsCredsArg with | none => acct.credentials | some c => some c) with
  | some c => ⟨some c, none, none, none⟩
  | none =>
    match acct.profile with
    | some p => ⟨none, some p, none, none⟩
    | none =>
      match acct.role_arn with
      | some r => ⟨none, none, some r, acct.external_id⟩
      | none => ⟨none, none, none, none⟩

/-- Description of the boto3.Session construction performed by
_create_client.  `ambient` stands for boto3.Session() with no explicit
credentials at all (the fallback the specification describes); the theorems
below show the code never produces it. -/
inductive SessionMode where
  | explicitCreds (c : Creds) : SessionMode
  | profileSession (p : String) : SessionMode
  | assumeRole (roleArn : Option String) (externalId : Option String) : SessionMode
  | ambient : SessionMode
deriving DecidableEq

/-- The else-branch of _create_client (awsclient.py lines 98-116): an STS
assume_role call is always made, with ExternalId passed only when
self.external_id is truthy, and RoleArn passed as-is (possibly None). -/
def assumeRoleMode (r : ResolvedCreds) : SessionMode :=
  match r.external_id with
  | some e => if e = "" then SessionMode.assumeRole r.role_arn none
              else SessionMode.assumeRole r.role_arn (some e)
  | none => SessionMode.assumeRole r.role_arn none

/-- The elif-profile branch of _create_client (awsclient.py lines 95-97):
a truthy self.profile opens a profile session, otherwise we fall into the
assume-role branch. -/
def profileOrRole (r : ResolvedCreds) : SessionMode :=
  match r.profile with
  | some p => if p = "" then assumeRoleMode r else SessionMode.profileSession p
  | none => assumeRoleMode r

/-- Embedding of the session selection of _create_client (awsclient.py
lines 92-116), with Python truthiness on self.aws_creds (an empty dict is
falsy) and self.profile. -/
def createSession (r : ResolvedCreds) : SessionMode :=
  match r.aws_creds with
  | some c => if c = [] then profileOrRole r else SessionMode.explicitCreds c
  | none => profileOrRole r

/-- Model of the expression `self.region_name if self.region_name else None`
(awsclient.py line 125). -/
def pyRegion : Option String → Option String
  | none => none
  | some r => if r = "" then none else some r

/-- The client handle returned by _create_client (awsclient.py lines
123-125): the session it came from, the service, the botocore Config values
and the region argument. -/
structure ClientHandle where
  session : SessionMode
  service : String
  connectTimeout : Nat
  readTimeout : Nat
  retryMaxAttempts : Nat
  retryMode : String
  region : Option String
deriving DecidableEq

/-- Embedding of the tail of _create_client (awsclient.py lines 123-125):
Config(connect_timeout=5, read_timeout=60, retries max_attempts 30 mode
standard), region passed through Python truthiness. -/
def createClientHandle (mode : SessionMode) (service : String) (region : Option String) : ClientHandle :=
  { session := mode
    service := service
    connectTimeout := 5
    readTimeout := 60
    retryMaxAttempts := 30
    retryMode := "standard"
    region := pyRegion region }

/-- The state of an AWSClient instance after __init__: the stored
attributes (fields named after the Python attributes without the leading
underscore; the projections coincide with the read-only properties of
awsclient.py lines 68-90) and the client handle built once at line 66. -/
structure AWSClient where
  service_name : String
  region_name : Option String
  account_id : String
  aws_creds : Option Creds
  profile : Option String
  external_id : Option String
  role_arn : Option String
  placebo_dir : Option String
  placebo_mode : String
  client : ClientHandle

/-- Embedding of AWSClient.__init__ (awsclient.py lines 39-66) for a given
account configuration entry (the dict self._config at key accounts, then at
key account_id). -/
def awsClientInit (service : String) (region : Option String) (accountId : String)
    (acct : AccountConfig) (awsCredsArg : Option Creds)
    (placeboDir : Option String) (placeboMode : String) : AWSClient :=
  let r := initResolve awsCredsArg acct
  { service_name := service
    region_name := region
    account_id := accountId
    aws_creds := r.aws_creds
    profile := r.profile
    external_id := r.external_id
    role_arn := r.role_arn
    placebo_dir := placeboDir
    placebo_mode := placeboMode
    client := createClientHandle (createSession r) service region }

/-- Embedding of get_awsclient (awsclient.py lines 186-189): an empty
region string is normalized to None before construction. -/
def get_awsclient (service : String) (region : Option String) (accountId : String)
    (acct : AccountConfig) (awsCredsArg : Option Creds)
    (placeboDir : Option String) (placeboMode : String) : AWSClient :=
  awsClientInit service (if region = some "" then none else region)
    accountId acct awsCredsArg placeboDir placeboMode

/-- What one invocation of the underlying operation does, as seen by the
retry loop of call: return data, raise a botocore ClientError with a given
stringification, or raise some other (non-ClientError) exception. -/
inductive CallOutcome where
  | ok (d : JValue) : CallOutcome
  | clientError (msg : String) : CallOutcome
  | otherExc : CallOutcome

/-- The behavior of one operation of the external service: whether the
client reports it as paginatable, the outcome of the paginate /
build_full_result pipeline (a value or a propagating exception rendered as
a string), and the per-iteration outcomes seen by the non-paginated retry
loop. -/
structure OpBehavior where
  canPaginate : Bool
  pages : Except String (List JValue)
  script : List CallOutcome

/-- Embedding of the non-paginated retry loop of call (awsclient.py lines
161-180), driven by the scripted outcomes of successive invocations.
Returns the final `data` together with the list of sleep durations
performed (each throttling retry sleeps 1 second), or none when the script
is exhausted with the loop still running (the loop would keep invoking the
operation).  Note the shape of the Python handlers: a ClientError whose
message matches none of the four substrings leaves `done` False — the
later `except Exception` clause is never consulted for a ClientError — so
the loop retries it immediately; only a non-ClientError exception reaches
the catch-all that marks done. -/
def callLoop : List CallOutcome → Option (JValue × List Nat)
  | [] => none
  | CallOutcome.ok d :: _ => some (d, [])
  | CallOutcome.clientError msg :: rest =>
    if pyIn "Throttling" msg then
      match callLoop rest with
      | some (d, sleeps) => some (d, 1 :: sleeps)
      | none => none
    else if pyIn "AccessDenied" msg then some (emptyData, [])
    else if pyIn "NoSuchTagSet" msg then some (emptyData, [])
    else if pyIn "Topic does not exist" msg then some (emptyData, [])
    else callLoop rest
  | CallOutcome.otherExc :: _ => some (emptyData, [])

/-- What a call invocation does, observably: return data after a list of
sleeps, propagate an exception (the paginated path has no handler), or
still be looping when the scripted outcomes run out. -/
inductive CallResult where
  | ok (data : JValue) (sleeps : List Nat) : CallResult
  | excRaised (e : String) : CallResult
  | hung : CallResult

/-- Embedding of the two data-producing paths of call (awsclient.py lines
157-180), before any query is applied: the paginated path materializes
build_full_result (propagating any pagination failure), the non-paginated
path runs the retry loop. -/
def rawCall (build : List JValue → JValue) (op : OpBehavior) : CallResult :=
  if op.canPaginate then
    match op.pages with
    | Except.error e => CallResult.excRaised e
    | Except.ok ps => CallResult.ok (build ps) []
  else
    match callLoop op.script with
    | none => CallResult.hung
    | some (d, sleeps) => CallResult.ok d sleeps

/-- Embedding of call (awsclient.py lines 127-183): produce the data by
either path, then apply the jmespath query (an external search function)
only when the query argument is truthy (a non-None, non-empty string). -/
def callModel (search : String → JValue → JValue) (build : List JValue → JValue)
    (op : OpBehavior) (query : Option String) : CallResult :=
  match query with
  | none => rawCall build op
  | some q =>
    if q = "" then rawCall build op
    else
      match rawCall build op with
      | CallResult.ok d sleeps => CallResult.ok (search q d) sleeps
      | r => r

/-- Post-processing combinator used to state that the query is a pure
post-process step: apply a function to the returned data, leaving raised
exceptions and the hung outcome alone. -/
def mapResult (f : JValue → JValue) : CallResult → CallResult
  | CallResult.ok d sleeps => CallResult.ok (f d) sleeps
  | r => r

/-- The call method as a state transformer on the wrapper instance: the
operation behavior is looked up from the held client handle and the
operation name (modelling getattr(self client, op_name) and can_paginate),
and the instance state after the call is returned alongside the result.
The Python body of call assigns no attribute of self, so the state it
returns is the state it received. -/
def callS (search : String → JValue → JValue) (build : List JValue → JValue)
    (svc : ClientHandle → String → OpBehavior) (c : AWSClient)
    (opName : String) (query : Option String) : CallResult × AWSClient :=
  (callModel search build (svc c.client opName) query, c)


/-- Definition following the words of the specification, for comparison
with the code embedding (refinement statement of claim C3, as amended):
the precedence explicit-argument, then explicit-in-config, then profile,
then role assumption with the configured role_arn and external_id; when
none is configured the role-assumption branch is still taken with no role
ARN. -/
def specPrecedence (arg : Option Creds) (acct : AccountConfig) : SessionMode :=
  match arg with
  | some c => SessionMode.explicitCreds c
  | none =>
    match acct.credentials with
    | some c => SessionMode.explicitCreds c
    | none =>
      match acct.profile with
      | some p => SessionMode.profileSession p
      | none =>
        match acct.role_arn with
        | some r => SessionMode.assumeRole (some r) acct.external_id
        | none => SessionMode.assumeRole none none

/-- C8: json_encoder maps every datetime value to its ISO-8601 string
representation and returns every non-datetime value unchanged. -/
theorem c8_json_encoder :
    (∀ d : PyDatetime, json_encoder (JValue.datetime d) = JValue.str d.isoformat)
    ∧ (∀ v : JValue, v.isDatetimeVal = false → json_encoder v = v) := by
  constructor
  · intro d; rfl
  · intro v h; cases v <;> simp_all [json_encoder, JValue.isDatetimeVal]

/-- Witness for C8 at concrete values: a non-datetime value passes through
unchanged, and a concrete datetime renders in ISO-8601 form. -/
theorem c8_witness :
    json_encoder (JValue.num 3) = JValue.num 3
    ∧ json_encoder (JValue.datetime ⟨2020, 1, 2, 3, 4, 5, 0⟩)
        = JValue.str "2020-01-02T03:04:05" :=
  ⟨c8_json_encoder.2 (JValue.num 3) (by decide),
   (c8_json_encoder.1 ⟨2020, 1, 2, 3, 4, 5, 0⟩).trans
     (congrArg JValue.str (by decide))⟩

/-- C4: in the non-paginated path, when the first n invocations each raise
a ClientError whose message contains Throttling and the next invocation
succeeds with d, call returns d and performs exactly n sleeps of one
second each, one before each retry. -/
theorem c4_throttle_retry (search : String → JValue → JValue)
    (build : List JValue → JValue) (pages : Except String (List JValue))
    (msg : String) (n : Nat) (d : JValue) (rest : List CallOutcome)
    (h : pyIn "Throttling" msg = true) :
    callModel search build
      ⟨false, pages, List.replicate n (CallOutcome.clientError msg) ++ CallOutcome.ok d :: rest⟩
      none
    = CallResult.ok d (List.replicate n 1) := by
  have key : ∀ m : Nat,
      callLoop (List.replicate m (CallOutcome.clientError msg) ++ CallOutcome.ok d :: rest)
      = some (d, List.replicate m 1) := by
    intro m
    induction m with
    | zero => rfl
    | succ k ih => simp [List.replicate_succ, callLoop, h, ih]
  simp [callModel, rawCall, key n]

/-- Witness for C4: two throttling errors followed by success yield the
successful result with exactly two one-second sleeps. -/
theorem c4_witness :
    callModel (fun _ d => d) (fun _ => emptyData)
      ⟨false, Except.ok [],
        [CallOutcome.clientError "Throttling happened",
         CallOutcome.clientError "Throttling happened",
         CallOutcome.ok (JValue.num 9)]⟩
      none
    = CallResult.ok (JValue.num 9) [1, 1] :=
  c4_throttle_retry (fun _ d => d) (fun _ => emptyData) (Except.ok [])
    "Throttling happened" 2 (JValue.num 9) [] (by decide)


/-- C5: for the same backing behavior, call with a truthy query expression
returns exactly the query search applied to the data that call without a
query returns, whatever path produced it; and call without a query returns
the raw result of the data-producing paths unchanged. -/
theorem c5_query_postprocess (search : String → JValue → JValue)
    (build : List JValue → JValue) (op : OpBehavior) (q : String)
    (hq : q ≠ "") :
    callModel search build op (some q) = mapResult (search q) (callModel search build op none)
    ∧ callModel search build op none = rawCall build op := by
  refine ⟨?_, rfl⟩
  simp only [callModel, if_neg hq]
  cases rawCall build op <;> rfl

/-- Witness for C5 at a concrete non-paginated behavior and query. -/
theorem c5_witness :
    callModel (fun q d => JValue.arr [JValue.str q, d]) (fun _ => emptyData)
      ⟨false, Except.ok [], [CallOutcome.ok (JValue.num 4)]⟩ (some "a")
    = mapResult ((fun q d => JValue.arr [JValue.str q, d]) "a")
        (callModel (fun q d => JValue.arr [JValue.str q, d]) (fun _ => emptyData)
          ⟨false, Except.ok [], [CallOutcome.ok (JValue.num 4)]⟩ none) :=
  (c5_query_postprocess (fun q d => JValue.arr [JValue.str q, d]) (fun _ => emptyData)
    ⟨false, Except.ok [], [CallOutcome.ok (JValue.num 4)]⟩ "a" (by decide)).1

/-- C6: in the non-paginated path, a ClientError whose message contains
AccessDenied, NoSuchTagSet or Topic does not exist (the three checks of the
elif chain, so the message is one that escaped the preceding Throttling
check) terminates the retry loop at once — the rest of the script is never
consulted — and call returns the empty default result with no sleeps and
no exception raised. -/
theorem c6_ignorable_swallowed (search : String → JValue → JValue)
    (build : List JValue → JValue) (pages : Except String (List JValue))
    (msg : String) (rest : List CallOutcome)
    (hT : pyIn "Throttling" msg = false)
    (hI : (pyIn "AccessDenied" msg || pyIn "NoSuchTagSet" msg
            || pyIn "Topic does not exist" msg) = true) :
    callModel search build ⟨false, pages, CallOutcome.clientError msg :: rest⟩ none
    = CallResult.ok emptyData [] := by
  simp only [callModel, rawCall]
  cases hA : pyIn "AccessDenied" msg with
  | true => simp [callLoop, hT, hA]
  | false =>
    cases hN : pyIn "NoSuchTagSet" msg with
    | true => simp [callLoop, hT, hA, hN]
    | false =>
      cases hX : pyIn "Topic does not exist" msg with
      | true => simp [callLoop, hT, hA, hN, hX]
      | false => simp [hA, hN, hX] at hI

/-- Witness for C6: a concrete AccessDenied error is swallowed into the
empty result even though a successful outcome would have followed. -/
theorem c6_witness :
    callModel (fun _ d => d) (fun _ => emptyData)
      ⟨false, Except.ok [],
        [CallOutcome.clientError "An error occurred AccessDenied",
         CallOutcome.ok (JValue.num 1)]⟩ none
    = CallResult.ok emptyData [] :=
  c6_ignorable_swallowed (fun _ d => d) (fun _ => emptyData) (Except.ok [])
    "An error occurred AccessDenied" [CallOutcome.ok (JValue.num 1)]
    (by decide) (by decide)

/-- C7: for a paginatable operation, call materializes the full aggregated
result of the pagination pipeline with no sleeps; a query is applied only
after that aggregation; and a pagination failure propagates uncaught, with
no partial result, whatever the query argument. -/
theorem c7_paginated (search : String → JValue → JValue)
    (build : List JValue → JValue) (ps : List JValue) (e : String)
    (script : List CallOutcome) :
    (callModel search build ⟨true, Except.ok ps, script⟩ none
       = CallResult.ok (build ps) [])
    ∧ (∀ q : String, q ≠ "" →
        callModel search build ⟨true, Except.ok ps, script⟩ (some q)
        = CallResult.ok (search q (build ps)) [])
    ∧ (∀ query : Option String,
        callModel search build ⟨true, Except.error e, script⟩ query
        = CallResult.excRaised e) := by
  refine ⟨rfl, ?_, ?_⟩
  · intro q hq
    simp [callModel, rawCall, if_neg hq]
  · intro query
    cases query with
    | none => rfl
    | some q =>
      by_cases hq : q = "" <;> simp [callModel, rawCall, hq]

/-- Witness for C7: two synthetic pages are aggregated before the query is
applied, at a concrete aggregator and search function. -/
theorem c7_witness :
    callModel (fun q d => JValue.arr [JValue.str q, d]) (fun ps => JValue.arr ps)
      ⟨true, Except.ok [JValue.num 1, JValue.num 2], []⟩ (some "a")
    = CallResult.ok (JValue.arr [JValue.str "a", JValue.arr [JValue.num 1, JValue.num 2]]) [] :=
  (c7_paginated (fun q d => JValue.arr [JValue.str q, d]) (fun ps => JValue.arr ps)
    [JValue.num 1, JValue.num 2] "boom" []).2.1 "a" (by decide)

/-- C9: the Throttling check precedes the ignorable-error checks: a
ClientError whose message contains Throttling together with one of
AccessDenied, NoSuchTagSet or Topic does not exist takes the throttling
branch — one one-second sleep, then the loop continues with the next
outcome — rather than terminating with the swallowed empty result. -/
theorem c9_throttle_precedence (msg : String) (rest : List CallOutcome)
    (hT : pyIn "Throttling" msg = true)
    (_hI : (pyIn "AccessDenied" msg || pyIn "NoSuchTagSet" msg
            || pyIn "Topic does not exist" msg) = true) :
    callLoop (CallOutcome.clientError msg :: rest)
    = Option.map (fun p => (p.1, 1 :: p.2)) (callLoop rest) := by
  simp only [callLoop, hT, if_true]
  cases callLoop rest with
  | none => rfl
  | some p => cases p; rfl

/-- Witness for C9: a message containing both Throttling and AccessDenied
sleeps one second and retries, reaching the following successful outcome. -/
theorem c9_witness :
    callLoop [CallOutcome.clientError "Throttling AccessDenied",
              CallOutcome.ok (JValue.num 7)]
    = some (JValue.num 7, [1]) :=
  (c9_throttle_precedence "Throttling AccessDenied" [CallOutcome.ok (JValue.num 7)]
    (by decide) (by decide)).trans (by rfl)


/-- C1 counterexample: a ClientError whose message matches none of the four
substrings does not mark done — the later except-Exception clause is never
reached from the ClientError handler — so with such an error as sole
scripted outcome the loop is still running, and with a success scripted
after it, call returns that later success, not the empty result the claim
promises. -/
theorem c1_counterexample :
    (callModel (fun _ d => d) (fun _ => emptyData)
        ⟨false, Except.ok [], [CallOutcome.clientError "InvalidParameterValue"]⟩ none
      = CallResult.hung)
    ∧ (callModel (fun _ d => d) (fun _ => emptyData)
        ⟨false, Except.ok [],
          [CallOutcome.clientError "InvalidParameterValue", CallOutcome.ok (JValue.num 42)]⟩ none
      = CallResult.ok (JValue.num 42) [])
    ∧ CallResult.hung ≠ CallResult.ok emptyData []
    ∧ CallResult.ok (JValue.num 42) [] ≠ CallResult.ok emptyData [] :=
  ⟨rfl, rfl, by simp, by simp [emptyData]⟩

/-- C1 as amended: only an exception that is not a ClientError reaches the
catch-all that marks done and makes call return the existing (initially
empty) result silently; a ClientError matching none of the throttling or
ignorable substrings leaves done unset and the loop retries it immediately,
with no sleep, indefinitely while it recurs. -/
theorem c1_amended :
    (∀ (msg : String) (rest : List CallOutcome),
      pyIn "Throttling" msg = false → pyIn "AccessDenied" msg = false →
      pyIn "NoSuchTagSet" msg = false → pyIn "Topic does not exist" msg = false →
      callLoop (CallOutcome.clientError msg :: rest) = callLoop rest)
    ∧ (∀ (search : String → JValue → JValue) (build : List JValue → JValue)
        (pages : Except String (List JValue)) (rest : List CallOutcome),
      callModel search build ⟨false, pages, CallOutcome.otherExc :: rest⟩ none
      = CallResult.ok emptyData []) := by
  constructor
  · intro msg rest h1 h2 h3 h4
    simp [callLoop, h1, h2, h3, h4]
  · intro search build pages rest
    rfl

/-- Witness for C1 as amended: a concrete unmatched ClientError is simply
skipped by the loop, which carries on to the next outcome. -/
theorem c1_witness :
    callLoop [CallOutcome.clientError "InvalidInput", CallOutcome.ok (JValue.num 5)]
    = some (JValue.num 5, []) :=
  (c1_amended.1 "InvalidInput" [CallOutcome.ok (JValue.num 5)]
    (by decide) (by decide) (by decide) (by decide)).trans (by rfl)

/-- C2 counterexample: with no constructor credentials and an account
configuration containing none of credentials, profile and role_arn,
_create_client still takes the assume-role branch — it attempts
sts.assume_role with a null RoleArn — rather than opening an ambient
session with no explicit credentials. -/
theorem c2_counterexample :
    (awsClientInit "ec2" none "123456789012" ⟨none, none, none, none⟩
        none none "record").client.session
      = SessionMode.assumeRole none none
    ∧ SessionMode.assumeRole none none ≠ SessionMode.ambient :=
  ⟨rfl, by decide⟩

/-- C2 as amended: when the constructor receives no explicit credentials
and the account configuration has neither credentials nor a profile nor a
role_arn (whatever its external_id), construction always enters the
role-assumption branch with an absent role ARN; no ambient-credential
session is ever opened. -/
theorem c2_amended (s : String) (rg : Option String) (aid : String)
    (eid : Option String) (pd : Option String) (pm : String) :
    (awsClientInit s rg aid ⟨none, none, none, eid⟩ none pd pm).client.session
    = SessionMode.assumeRole none none := by
  cases eid <;> rfl

/-- C3 counterexample: the claimed final fallback to ambient credentials
does not exist; an account configuration with only an external_id resolves
to an assume-role session with no role ARN, not to the ambient mode. -/
theorem c3_counterexample :
    (awsClientInit "s3" none "42" ⟨none, none, none, some "xid"⟩
        none none "record").client.session
    ≠ SessionMode.ambient := by decide

/-- C3 as amended: for account configurations whose present entries are
truthy (non-empty credentials, profile and external_id strings),
construction selects exactly one session mode by the fixed precedence
explicit-argument credentials, else configuration credentials, else the
configuration profile, else role assumption with the configuration
role_arn passing external_id only when present — and when none of these
is configured, the role-assumption branch is still taken with no role ARN
(there is no ambient mode). -/
theorem c3_amended (arg : Option Creds) (acct : AccountConfig)
    (s : String) (rg : Option String) (aid : String) (pd : Option String) (pm : String)
    (h1 : ∀ c, arg = some c → c ≠ [])
    (h2 : ∀ c, acct.credentials = some c → c ≠ [])
    (h3 : ∀ p, acct.profile = some p → p ≠ "")
    (h4 : ∀ e, acct.external_id = some e → e ≠ "") :
    (awsClientInit s rg aid acct arg pd pm).client.session = specPrecedence arg acct := by
  obtain ⟨cr, pr, ra, eid⟩ := acct
  show createSession (initResolve arg ⟨cr, pr, ra, eid⟩) = specPrecedence arg ⟨cr, pr, ra, eid⟩
  cases arg with
  | some c =>
    have hc := h1 c rfl
    simp [initResolve, createSession, specPrecedence, hc]
  | none =>
    cases cr with
    | some c =>
      have hc := h2 c rfl
      simp [initResolve, createSession, specPrecedence, hc]
    | none =>
      cases pr with
      | some p =>
        have hp := h3 p rfl
        simp [initResolve, createSession, profileOrRole, specPrecedence, hp]
      | none =>
        cases ra with
        | some r =>
          cases eid with
          | some e =>
            have he := h4 e rfl
            simp [initResolve, createSession, profileOrRole, assumeRoleMode,
              specPrecedence, he]
          | none =>
            simp [initResolve, createSession, profileOrRole, assumeRoleMode, specPrecedence]
        | none =>
          simp [initResolve, createSession, profileOrRole, assumeRoleMode, specPrecedence]

/-- Witness for C3 as amended: a configuration with only a profile resolves
to the profile session of the precedence function. -/
theorem c3_witness :
    (awsClientInit "ec2" none "1" ⟨none, some "dev", none, none⟩
        none none "record").client.session
    = SessionMode.profileSession "dev" :=
  (c3_amended none ⟨none, some "dev", none, none⟩ "ec2" none "1" none "record"
    (fun c h => Option.noConfusion h)
    (fun c h => Option.noConfusion h)
    (fun p h => by injection h with h5; subst h5; decide)
    (fun e h => Option.noConfusion h)).trans (by decide)

/-- C10: call never mutates the wrapper state: on any path, the six
read-only properties and the held client handle of the returned instance
state are those the constructor established. -/
theorem c10_call_no_mutation (search : String → JValue → JValue)
    (build : List JValue → JValue) (svc : ClientHandle → String → OpBehavior)
    (c : AWSClient) (opName : String) (query : Option String) :
    (callS search build svc c opName query).2.service_name = c.service_name
    ∧ (callS search build svc c opName query).2.region_name = c.region_name
    ∧ (callS search build svc c opName query).2.account_id = c.account_id
    ∧ (callS search build svc c opName query).2.profile = c.profile
    ∧ (callS search build svc c opName query).2.external_id = c.external_id
    ∧ (callS search build svc c opName query).2.role_arn = c.role_arn
    ∧ (callS search build svc c opName query).2.client = c.client :=
  ⟨rfl, rfl, rfl, rfl, rfl, rfl, rfl⟩

end Skew
